import Mathlib

/-!
Verification of the connection management service interface of
`sql/platform/connection/common/connectionManagement.ts` (azuredatastudio).

The repository file under verification declares the data shapes
(`IConnectionCompletionOptions`, `IConnectionResult`, `IConnectionCallbacks`,
`INewConnectionParams`, enums) and the public contract of
`IConnectionManagementService`.  Those declarations are embedded directly.
The service implementation itself (the Connection Table, the Orchestrator,
the Recency Store) is not part of the given sources, so its behavior is
modelled from the specification (sections 3-8 of the design document) and
marked `Modelled from the spec:` on each such definition.
-/

/-- Embedded from the source enum `ConnectionType` (default = 0, editor = 1). -/
inductive ConnectionType where
  | default
  | editor
deriving DecidableEq, Repr

/-- Embedded from the source enum `RunQueryOnConnectionMode`. -/
inductive RunQueryOnConnectionMode where
  | none
  | executeQuery
  | executeCurrentQuery
  | estimatedQueryPlan
  | actualQueryPlan
deriving DecidableEq, Repr

/-- Embedded from the source enum `MetadataType`. -/
inductive MetadataType where
  | Table
  | View
  | SProc
  | Function
deriving DecidableEq, Repr

/-- Embedded from the source enum `TaskStatus`. -/
inductive TaskStatus where
  | NotStarted
  | InProgress
  | Succeeded
  | SucceededWithWarning
  | Failed
  | Canceled
  | Canceling
deriving DecidableEq, Repr

/-- External `sqlops.ISelectionData`: a text selection (start/end line and column). -/
structure ISelectionData where
  startLine : Nat
  startColumn : Nat
  endLine : Nat
  endColumn : Nat
deriving DecidableEq, Repr

/-- Embedded from the source interface `IConnectableInput`: the owner input is
identified by its `uri`.  Its five callback methods (`onConnectStart`,
`onConnectReject`, `onConnectSuccess`, `onDisconnect`, `onConnectCanceled`)
are notifications to the owning editor; they carry no data relevant to the
service state, so the embedding identifies an input by its owner URI
(spec glossary: "Owner URI"). -/
structure IConnectableInput where
  uri : String
deriving DecidableEq, Repr

/-- Embedded from the source interface `INewConnectionParams`.
`connectionType` is required; all other fields are optional (`?` in the
source), hence `Option`. -/
structure INewConnectionParams where
  connectionType : ConnectionType
  input : Option IConnectableInput
  runQueryOnCompletion : Option RunQueryOnConnectionMode
  querySelection : Option ISelectionData
  showDashboard : Option Bool
  providers : Option (List String)
deriving DecidableEq, Repr

/-- Embedded from the source interface `IConnectionCompletionOptions`:
all five fields are required (no `?` in the source). -/
structure IConnectionCompletionOptions where
  saveTheConnection : Bool
  showDashboard : Bool
  params : INewConnectionParams
  showConnectionDialogOnError : Bool
  showFirewallRuleOnError : Bool
deriving DecidableEq, Repr

/-- Embedded from the source interface `IConnectionProfile`
(`sql/platform/connection/common/interfaces`, used opaquely by the file
under verification): identity-relevant connection fields plus the
open-ended string-keyed options mapping (spec section 3, ConnectionProfile). -/
structure IConnectionProfile where
  id : String
  providerName : String
  serverName : String
  databaseName : String
  userName : String
  password : String
  authenticationType : String
  options : List (String × String)
deriving DecidableEq, Repr

/-- Embedded from the source interface `IConnectionResult`:
`connected`, `errorMessage`, `errorCode` and `callStack` are required
fields; `errorHandled` and `connectionProfile` are optional (`?` in the
source), hence `Option`. -/
structure IConnectionResult where
  connected : Bool
  errorMessage : String
  errorCode : Int
  callStack : String
  errorHandled : Option Bool
  connectionProfile : Option IConnectionProfile
deriving DecidableEq, Repr

/-- Embedded from the source interface `IConnectionCallbacks`: the five
caller-supplied notification hooks.  They are behaviors invoked on the
caller, not service state; the state transitions of the service ignore them. -/
structure IConnectionCallbacks where
  onConnectStart : Unit → Unit
  onConnectReject : Option String → Unit
  onConnectSuccess : Option INewConnectionParams → Unit
  onDisconnect : Unit → Unit
  onConnectCanceled : Unit → Unit

/-- External `sqlops.ConnectionInfoSummary` delivered by a provider to
`onConnectionComplete`.  Success is signalled by a present `connectionId`;
failure carries `errorMessage` / `errorNumber` / `messages`. -/
structure ConnectionInfoSummary where
  ownerUri : String
  connectionId : Option String
  errorMessage : String
  errorNumber : Int
  messages : String
  serverInfo : Option String
deriving DecidableEq, Repr

/-- Error taxonomy from spec section 7. -/
inductive ConnectionError where
  | UnknownProvider
  | ProviderUnavailable
  | NotConnected
  | ConnectFailed (code : Int) (message : String)
  | Cancelled
  | Timeout
  | InvalidProfile
deriving DecidableEq, Repr

/-- How the pending connect promise of a caller is resolved: with a structured
`IConnectionResult`, or as cancelled. -/
inductive ConnectResolution where
  | completed (r : IConnectionResult)
  | cancelled
deriving DecidableEq, Repr

/-- Modelled from the spec: ConnectionManagementInfo (section 3) — the
runtime record for one established connection: owning URI, resolved
profile, provider id, provider-returned server information, the
connection id/token for subsequent provider calls, and the active
database (mutated by `changeDatabase`). -/
structure ConnectionManagementInfo where
  ownerUri : String
  connectionProfile : IConnectionProfile
  providerId : String
  serverInfo : String
  connectionId : String
  activeDatabase : String
deriving DecidableEq, Repr

/-- Modelled from the spec: Pending Connection Entry (section 3) — the
transient record keyed by the correlation handle, holding the URI and
profile being connected, the completion options, and the number of
attached waiting callers. -/
structure PendingConnectionEntry where
  handle : Nat
  uri : String
  profile : IConnectionProfile
  options : Option IConnectionCompletionOptions
  waiters : Nat
deriving DecidableEq, Repr

/-- Modelled from the spec: Recency Entry (section 3) — a profile snapshot
with its last-used timestamp, ordered most-recent-first. -/
structure RecencyEntry where
  profile : IConnectionProfile
  lastUsed : Nat
deriving DecidableEq, Repr

/-- Modelled from the spec: the service state (section 2) — the Connection
Table (owner URI to active connection), the pending-request table keyed by
correlation handle, the Recency Store, the Provider Registry (registered
provider ids), the next correlation handle, a logical clock for recency
timestamps, the recency capacity bound, and the log of provider-level
connect requests actually issued. -/
structure ServiceState where
  connections : List (String × ConnectionManagementInfo)
  pendings : List PendingConnectionEntry
  recents : List RecencyEntry
  providers : List String
  nextHandle : Nat
  clock : Nat
  recentCapacity : Nat
  providerRequests : List (Nat × String × String)
deriving DecidableEq, Repr

/-- Spec section 3: profile equality for reuse purposes is structural over
the identity-relevant fields, not object identity. -/
def matchesProfile (a b : IConnectionProfile) : Bool :=
  a.providerName == b.providerName && a.serverName == b.serverName &&
  a.databaseName == b.databaseName && a.userName == b.userName &&
  a.authenticationType == b.authenticationType

/-- Evaluation of `options && options.saveTheConnection` on a possibly-absent options
argument. -/
def saveTheConnectionOf : Option IConnectionCompletionOptions → Bool
  | some o => o.saveTheConnection
  | none => false

/-- Modelled from the spec: adding to the Recency Store (sections 3, 4.2) —
an already-present profile (same structural identity) is moved to the
front rather than duplicated, the new entry is stamped with the current
time, and the list is truncated to the capacity bound (oldest evicted). -/
def addToRecent (p : IConnectionProfile) (now cap : Nat)
    (rs : List RecencyEntry) : List RecencyEntry :=
  (⟨p, now⟩ :: rs.filter (fun e => !(matchesProfile e.profile p))).take cap

/-- Modelled from the spec: `getRecentConnections` — the profiles of the Recency Store,
most-recent-first. -/
def getRecentConnections (st : ServiceState) : List IConnectionProfile :=
  st.recents.map (·.profile)

/-- Outcome of starting a `connect` call: a fresh provider request was
issued under a new handle, the call attached to an in-flight pending entry
for the same URI, or an existing connection was reused without any
provider request. -/
inductive ConnectStartOutcome where
  | started (handle : Nat)
  | attached (handle : Nat)
  | reused (r : IConnectionResult)
deriving DecidableEq, Repr

/-- Modelled from the spec: `connect(profile, uri, options, callbacks)`
(section 4.1), request-issuing phase.  Programmer-error inputs fail fast
synchronously: an empty `uri` or a malformed profile (empty provider name)
is `InvalidProfile`, an unregistered provider id is `UnknownProvider`
(section 7).  If `options.saveTheConnection` and an existing connection
with the same profile identity exists, the call short-circuits and returns
it without re-issuing to the provider.  Otherwise a second call for a URI
with an in-flight Pending Entry attaches to that entry instead of issuing
a duplicate provider request; a fresh call creates a Pending Entry under a
new correlation handle and issues exactly one provider-level request.
The caller-supplied `callbacks` are notification hooks and do not affect
the service state. -/
def connect (p : IConnectionProfile) (u : String)
    (options : Option IConnectionCompletionOptions)
    (callbacks : Option IConnectionCallbacks)
    (st : ServiceState) :
    Except ConnectionError (ServiceState × ConnectStartOutcome) :=
  if u = "" then .error .InvalidProfile
  else if p.providerName = "" then .error .InvalidProfile
  else if st.providers.contains p.providerName then
    match (if saveTheConnectionOf options then
             st.connections.find? (fun c => matchesProfile c.2.connectionProfile p)
           else none) with
    | some c =>
        .ok (st, .reused { connected := true, errorMessage := "", errorCode := 0,
                           callStack := "", errorHandled := none,
                           connectionProfile := some c.2.connectionProfile })
    | none =>
        match st.pendings.find? (fun e => e.uri == u) with
        | some e =>
            .ok ({ st with
                   pendings := st.pendings.map (fun x =>
                     if x.handle == e.handle then { x with waiters := x.waiters + 1 }
                     else x) },
                 .attached e.handle)
        | none =>
            .ok ({ st with
                   pendings := { handle := st.nextHandle, uri := u, profile := p,
                                 options := options, waiters := 1 } :: st.pendings,
                   nextHandle := st.nextHandle + 1,
                   providerRequests :=
                     (st.nextHandle, p.providerName, u) :: st.providerRequests },
                 .started st.nextHandle)
  else .error .UnknownProvider

/-- Modelled from the spec: `connectAndSaveProfile` (section 4.1) — identical
to `connect` but forces persistence to the Recency Store regardless of
`saveTheConnection`. -/
def connectAndSaveProfile (p : IConnectionProfile) (u : String)
    (options : Option IConnectionCompletionOptions)
    (callbacks : Option IConnectionCallbacks)
    (st : ServiceState) :
    Except ConnectionError (ServiceState × ConnectStartOutcome) :=
  let forced : IConnectionCompletionOptions :=
    match options with
    | some o => { o with saveTheConnection := true }
    | none =>
        { saveTheConnection := true, showDashboard := false,
          params := { connectionType := .default, input := none,
                      runQueryOnCompletion := none, querySelection := none,
                      showDashboard := none, providers := none },
          showConnectionDialogOnError := false, showFirewallRuleOnError := false }
  connect p u (some forced) callbacks st

/-- Modelled from the spec: `onConnectionComplete(handle, summary)`
(sections 4.1, 5) — the provider-origin completion callback.  A handle
with no matching Pending Entry (already completed, cancelled, or unknown)
is ignored and produces no state change (stale-handle guard).  On success
(a present `connectionId`) the pending entry is promoted to a
ConnectionManagementInfo, the Recency Store is updated when
`saveTheConnection` was set, and every attached waiter is resolved with
the same `{connected: true, connectionProfile}` result.  On failure the
Connection Table and Recency Store are untouched and every waiter is
resolved with the same structured
`{connected: false, errorMessage, errorCode}` result — never a rejection. -/
def onConnectionComplete (h : Nat) (summary : ConnectionInfoSummary)
    (st : ServiceState) : ServiceState × List ConnectResolution :=
  match st.pendings.find? (fun e => e.handle == h) with
  | none => (st, [])
  | some e =>
      let rest := st.pendings.filter (fun x => !(x.handle == h))
      match summary.connectionId with
      | some cid =>
          let info : ConnectionManagementInfo :=
            { ownerUri := e.uri, connectionProfile := e.profile,
              providerId := e.profile.providerName,
              serverInfo := summary.serverInfo.getD "",
              connectionId := cid, activeDatabase := e.profile.databaseName }
          ({ st with
             pendings := rest,
             connections := (e.uri, info) :: st.connections.filter (fun c => !(c.1 == e.uri)),
             recents := if saveTheConnectionOf e.options then
                          addToRecent e.profile st.clock st.recentCapacity st.recents
                        else st.recents,
             clock := st.clock + 1 },
           List.replicate e.waiters (.completed
             { connected := true, errorMessage := "", errorCode := 0,
               callStack := "", errorHandled := none,
               connectionProfile := some e.profile }))
      | none =>
          ({ st with pendings := rest },
           List.replicate e.waiters (.completed
             { connected := false, errorMessage := summary.errorMessage,
               errorCode := summary.errorNumber, callStack := summary.messages,
               errorHandled := none, connectionProfile := some e.profile }))

/-- Modelled from the spec: `cancelConnection(profile)` (section 4.1) —
cancels a Pending Entry if one exists for the profile, resolving every
attached waiter as cancelled and discarding the entry locally; returns
whether a pending connect was found. -/
def cancelConnection (p : IConnectionProfile) (st : ServiceState) :
    Bool × ServiceState × List ConnectResolution :=
  match st.pendings.find? (fun e => matchesProfile e.profile p) with
  | none => (false, st, [])
  | some e =>
      (true,
       { st with pendings := st.pendings.filter (fun x => !(x.handle == e.handle)) },
       List.replicate e.waiters .cancelled)

/-- Modelled from the spec: `disconnect(uri)` (section 4.1) — removes the
active connection for the URI if one exists; a URI with only a Pending
Entry is treated as cancellation of that pending connect; a URI with
neither is an idempotent no-op; the operation always resolves
successfully. -/
def disconnect (u : String) (st : ServiceState) :
    Except ConnectionError Unit × ServiceState × List ConnectResolution :=
  match st.connections.find? (fun c => c.1 == u) with
  | some _ =>
      (.ok (), { st with connections := st.connections.filter (fun c => !(c.1 == u)) }, [])
  | none =>
      match st.pendings.find? (fun e => e.uri == u) with
      | some e =>
          (.ok (),
           { st with pendings := st.pendings.filter (fun x => !(x.handle == e.handle)) },
           List.replicate e.waiters .cancelled)
      | none => (.ok (), st, [])

/-- Modelled from the spec: `changeDatabase(uri, dbName)` (section 4.1) —
fails with `NotConnected` when no live connection exists for the URI; on
success delegates the change to the provider and mutates exactly the
active-database field of the stored ConnectionManagementInfo. -/
def changeDatabase (u d : String) (st : ServiceState) :
    Except ConnectionError ServiceState :=
  match st.connections.find? (fun c => c.1 == u) with
  | none => .error .NotConnected
  | some _ =>
      .ok { st with
            connections := st.connections.map (fun c =>
              if c.1 == u then (c.1, { c.2 with activeDatabase := d }) else c) }

/-- The purpose of a connection request (source: the string union
of dashboard, insights and connection, with connection the default). -/
inductive Purpose where
  | connection
  | dashboard
  | insights
deriving DecidableEq, Repr

/-- Modelled from the spec: the owner URI synthesized deterministically
from profile identity and purpose (section 4.1, connectIfNotConnected). -/
def connectionUriForPurpose (purp : Purpose) (p : IConnectionProfile) : String :=
  (match purp with
   | .connection => "connection://"
   | .dashboard => "dashboard://"
   | .insights => "insights://") ++ p.id

/-- Modelled from the spec: `findExistingConnection(profile, purpose)`
(section 4.1) — a pure lookup over the Connection Table, O(active
connections), returning the matching connected profile or none.  The
purpose defaults to `connection` when omitted.  Its declared source
signature returns `ConnectionProfile` directly (not a promise). -/
def findExistingConnection (p : IConnectionProfile) (purpose : Option Purpose)
    (st : ServiceState) : Option IConnectionProfile :=
  let purp := purpose.getD .connection
  (st.connections.find? (fun c =>
     c.1 == connectionUriForPurpose purp p && matchesProfile c.2.connectionProfile p)).map
    (·.2.connectionProfile)

/-- The same lookup written as a state-threading operation, to state the
frame property: the returned state is the input state, untouched. -/
def findExistingConnectionOp (p : IConnectionProfile) (purpose : Option Purpose)
    (st : ServiceState) : Option IConnectionProfile × ServiceState :=
  ((st.connections.find? (fun c =>
      c.1 == connectionUriForPurpose (purpose.getD .connection) p &&
      matchesProfile c.2.connectionProfile p)).map (·.2.connectionProfile),
   st)

/-- Modelled from the spec: `removeConnectionProfileCredentials(profile)`
(section 4.4 and the source doc comment "Get a copy of the connection
profile with its passwords removed") — returns a copy of the profile with
the password field and every secret-bearing option (an option whose name
is in `secretNames`) cleared; the input profile is not modified. -/
def removeConnectionProfileCredentials (secretNames : List String)
    (p : IConnectionProfile) : IConnectionProfile :=
  { p with
    password := "",
    options := p.options.map (fun kv =>
      if secretNames.contains kv.1 then (kv.1, "") else kv) }

/-- Modelled from the spec: `isConnected(fileUri)` — pure state query (section 4.1). -/
def isConnected (u : String) (st : ServiceState) : Bool :=
  (st.connections.find? (fun c => c.1 == u)).isSome

/-- How a method of the source interface returns its result: directly, as
a `Promise`, or as a `Thenable`. -/
inductive ReturnStyle where
  | direct
  | promise
  | thenable
deriving DecidableEq, Repr

/-- Declared signature of one interface method: required parameter names,
optional (`?`) parameter names, and the return style. -/
structure MethodSig where
  name : String
  requiredParams : List String
  optionalParams : List String
  returnStyle : ReturnStyle
deriving DecidableEq, Repr

/-- Embedded from the source declarations of `IConnectionManagementService`
(the methods the claims are about, with their exact parameter optionality
and return kinds). -/
def interfaceMethodSigs : List MethodSig :=
  [ { name := "connect", requiredParams := ["connection", "uri"],
      optionalParams := ["options", "callbacks"], returnStyle := .promise },
    { name := "connectAndSaveProfile", requiredParams := ["connection", "uri"],
      optionalParams := ["options", "callbacks"], returnStyle := .promise },
    { name := "findExistingConnection", requiredParams := ["connection"],
      optionalParams := ["purpose"], returnStyle := .direct },
    { name := "getRecentConnections", requiredParams := [],
      optionalParams := ["providers"], returnStyle := .direct },
    { name := "onConnectionComplete", requiredParams := ["handle", "connectionInfoSummary"],
      optionalParams := [], returnStyle := .direct },
    { name := "cancelConnection", requiredParams := ["connection"],
      optionalParams := [], returnStyle := .thenable },
    { name := "changeDatabase", requiredParams := ["connectionUri", "databaseName"],
      optionalParams := [], returnStyle := .thenable },
    { name := "disconnect", requiredParams := ["ownerUri"],
      optionalParams := [], returnStyle := .promise },
    { name := "removeConnectionProfileCredentials", requiredParams := ["profile"],
      optionalParams := [], returnStyle := .direct } ]

/-- The two-argument form of `connect`: the source declares `options` and
`callbacks` optional, so `connect(profile, uri)` is the same call with
both arguments absent. -/
def connectTwoArgs (p : IConnectionProfile) (u : String) (st : ServiceState) :
    Except ConnectionError (ServiceState × ConnectStartOutcome) :=
  connect p u none none st

/-- The two-argument form of `connectAndSaveProfile`. -/
def connectAndSaveProfileTwoArgs (p : IConnectionProfile) (u : String)
    (st : ServiceState) : Except ConnectionError (ServiceState × ConnectStartOutcome) :=
  connectAndSaveProfile p u none none st

/-- Distinctness of two recency entries: their profiles differ on the
identity-relevant fields. -/
def distinctRecency (a b : RecencyEntry) : Prop :=
  matchesProfile a.profile b.profile = false

/-- One recency entry was used more recently than another. -/
def moreRecent (a b : RecencyEntry) : Prop :=
  b.lastUsed < a.lastUsed

theorem beq_symm_of_lawful {α : Type} [BEq α] [LawfulBEq α] (x y : α) :
    (x == y) = (y == x) := by
  by_cases h : x = y
  · simp [h]
  · simp [h, Ne.symm h]

theorem matchesProfile_symm (a b : IConnectionProfile) :
    matchesProfile a b = matchesProfile b a := by
  simp only [matchesProfile]
  rw [beq_symm_of_lawful a.providerName, beq_symm_of_lawful a.serverName,
    beq_symm_of_lawful a.databaseName, beq_symm_of_lawful a.userName,
    beq_symm_of_lawful a.authenticationType]

theorem find?_handle_filter_none (l : List PendingConnectionEntry) (h : Nat) :
    (l.filter (fun x => !(x.handle == h))).find? (fun x => x.handle == h) = none := by
  apply List.find?_eq_none.mpr
  intro x hx
  have hm := (List.mem_filter.mp hx).2
  simp at hm ⊢
  exact hm

theorem addToRecent_head? (p : IConnectionProfile) (now cap : Nat)
    (rs : List RecencyEntry) (hcap : 1 ≤ cap) :
    (addToRecent p now cap rs).head? = some ⟨p, now⟩ := by
  obtain ⟨k, rfl⟩ : ∃ k, cap = k + 1 := ⟨cap - 1, by omega⟩
  simp [addToRecent, List.take_succ_cons]

theorem addToRecent_pairwise_distinct (p : IConnectionProfile) (now cap : Nat)
    (rs : List RecencyEntry) (hp : rs.Pairwise distinctRecency) :
    (addToRecent p now cap rs).Pairwise distinctRecency := by
  have hcons : (({ profile := p, lastUsed := now } : RecencyEntry) ::
      rs.filter (fun e => !(matchesProfile e.profile p))).Pairwise distinctRecency := by
    rw [List.pairwise_cons]
    refine ⟨?_, hp.filter _⟩
    intro b hb
    have hm := (List.mem_filter.mp hb).2
    simp only [Bool.not_eq_true'] at hm
    simp only [distinctRecency]
    rw [matchesProfile_symm]
    exact hm
  exact hcons.sublist (List.take_sublist _ _)

theorem addToRecent_pairwise_recent (p : IConnectionProfile) (now cap : Nat)
    (rs : List RecencyEntry) (hp : rs.Pairwise moreRecent)
    (hlt : ∀ e ∈ rs, e.lastUsed < now) :
    (addToRecent p now cap rs).Pairwise moreRecent := by
  have hcons : (({ profile := p, lastUsed := now } : RecencyEntry) ::
      rs.filter (fun e => !(matchesProfile e.profile p))).Pairwise moreRecent := by
    rw [List.pairwise_cons]
    refine ⟨?_, hp.filter _⟩
    intro b hb
    exact hlt b (List.mem_filter.mp hb).1
  exact hcons.sublist (List.take_sublist _ _)

theorem addToRecent_length_le (p : IConnectionProfile) (now cap : Nat)
    (rs : List RecencyEntry) : (addToRecent p now cap rs).length ≤ cap :=
  List.length_take_le _ _

theorem onConnectionComplete_snd_shape (h : Nat) (s : ConnectionInfoSummary)
    (st : ServiceState) :
    (onConnectionComplete h s st).2 = [] ∨
    ∃ n r, (onConnectionComplete h s st).2 = List.replicate n r := by
  unfold onConnectionComplete
  cases st.pendings.find? (fun e => e.handle == h) with
  | none => left; rfl
  | some e =>
      cases s.connectionId with
      | none => right; exact ⟨e.waiters, _, rfl⟩
      | some cid => right; exact ⟨e.waiters, _, rfl⟩

theorem onConnectionComplete_resolutions_eq (h : Nat) (s : ConnectionInfoSummary)
    (st : ServiceState) :
    ∀ x ∈ (onConnectionComplete h s st).2, ∀ y ∈ (onConnectionComplete h s st).2,
      x = y := by
  intro x hx y hy
  rcases onConnectionComplete_snd_shape h s st with hnil | ⟨n, r, hrep⟩
  · rw [hnil] at hx
    exact absurd hx (List.not_mem_nil x)
  · rw [hrep] at hx hy
    rw [List.eq_of_mem_replicate hx, List.eq_of_mem_replicate hy]

/-- Concrete profile used by the closed witness statements. -/
def sampleProfile : IConnectionProfile :=
  { id := "id1", providerName := "MSSQL", serverName := "s1",
    databaseName := "db1", userName := "u1", password := "pw1",
    authenticationType := "SqlLogin",
    options := [("password", "pw1"), ("applicationName", "ads")] }

/-- Concrete completion options with `saveTheConnection` set. -/
def sampleSaveOptions : IConnectionCompletionOptions :=
  { saveTheConnection := true, showDashboard := false,
    params := { connectionType := .default, input := none,
                runQueryOnCompletion := none, querySelection := none,
                showDashboard := none, providers := none },
    showConnectionDialogOnError := false, showFirewallRuleOnError := false }

/-- Concrete empty service state with one registered provider. -/
def sampleState : ServiceState :=
  { connections := [], pendings := [], recents := [], providers := ["MSSQL"],
    nextHandle := 0, clock := 0, recentCapacity := 5, providerRequests := [] }

/-- Concrete pending entry for the witness statements. -/
def samplePending : PendingConnectionEntry :=
  { handle := 7, uri := "file:///a", profile := sampleProfile,
    options := some sampleSaveOptions, waiters := 2 }

/-- Concrete state with one in-flight pending connect. -/
def samplePendingState : ServiceState :=
  { sampleState with pendings := [samplePending], nextHandle := 8 }

/-- Concrete established connection record. -/
def sampleInfo : ConnectionManagementInfo :=
  { ownerUri := "connection://id1", connectionProfile := sampleProfile,
    providerId := "MSSQL", serverInfo := "srv", connectionId := "cid1",
    activeDatabase := "db1" }

/-- Concrete state with one established connection. -/
def sampleConnectedState : ServiceState :=
  { sampleState with
    connections := [("connection://id1", sampleInfo)],
    nextHandle := 1, clock := 1 }

/-- Concrete failure summary (auth failure, code 18456). -/
def sampleFailSummary : ConnectionInfoSummary :=
  { ownerUri := "file:///a", connectionId := none,
    errorMessage := "Login failed", errorNumber := 18456,
    messages := "stack", serverInfo := none }

/-- Concrete success summary. -/
def sampleOkSummary : ConnectionInfoSummary :=
  { ownerUri := "file:///a", connectionId := some "cid9",
    errorMessage := "", errorNumber := 0, messages := "",
    serverInfo := some "srv9" }

/-- Claim C5: `removeConnectionProfileCredentials` returns a copy of the
profile in which the password field and every secret-bearing option are
cleared, while every non-secret field and option of the input is carried
over unchanged; the input profile itself is a value that the call never
mutates (the embedding is value-semantic, and the conclusions below are
stated purely in terms of the unchanged input `p`). -/
theorem removeConnectionProfileCredentials_clears_secrets_only
    (secretNames : List String) (p : IConnectionProfile) :
    (removeConnectionProfileCredentials secretNames p).password = "" ∧
    (∀ kv ∈ (removeConnectionProfileCredentials secretNames p).options,
       kv.1 ∈ secretNames → kv.2 = "") ∧
    (∀ kv ∈ p.options, kv.1 ∉ secretNames →
       kv ∈ (removeConnectionProfileCredentials secretNames p).options) ∧
    (removeConnectionProfileCredentials secretNames p).id = p.id ∧
    (removeConnectionProfileCredentials secretNames p).providerName = p.providerName ∧
    (removeConnectionProfileCredentials secretNames p).serverName = p.serverName ∧
    (removeConnectionProfileCredentials secretNames p).databaseName = p.databaseName ∧
    (removeConnectionProfileCredentials secretNames p).userName = p.userName ∧
    (removeConnectionProfileCredentials secretNames p).authenticationType =
      p.authenticationType ∧
    (removeConnectionProfileCredentials secretNames p).options.length =
      p.options.length := by
  refine ⟨rfl, ?_, ?_, rfl, rfl, rfl, rfl, rfl, rfl,
    by simp [removeConnectionProfileCredentials]⟩
  · intro kv hkv hsec
    simp only [removeConnectionProfileCredentials, List.mem_map] at hkv
    obtain ⟨a, ha, hif⟩ := hkv
    by_cases hc : secretNames.contains a.1
    · rw [if_pos hc] at hif
      rw [← hif]
    · rw [if_neg hc] at hif
      subst hif
      exact absurd (List.elem_iff.mpr hsec) hc
  · intro kv hkv hnot
    simp only [removeConnectionProfileCredentials, List.mem_map]
    refine ⟨kv, hkv, ?_⟩
    rw [if_neg (fun hc => hnot (List.elem_iff.mp hc))]

/-- Witness for claim C5 at a concrete profile and secret set. -/
theorem removeConnectionProfileCredentials_clears_secrets_only_witness :
    (removeConnectionProfileCredentials ["password"] sampleProfile).password = "" ∧
    ("applicationName", "ads") ∈
      (removeConnectionProfileCredentials ["password"] sampleProfile).options := by
  have h := removeConnectionProfileCredentials_clears_secrets_only
    ["password"] sampleProfile
  exact ⟨h.1, h.2.2.1 ("applicationName", "ads") (by decide) (by decide)⟩

/-- Claim C9: an `IConnectionResult` value always carries `errorMessage`,
`errorCode` and `callStack` (together with `connected`, a value exists for
every combination, including `connected = true`), while `errorHandled` and
`connectionProfile` are optional and may be absent even on success; these
six fields determine the value completely. -/
theorem connectionResult_required_and_optional_fields :
    (∀ (b : Bool) (m : String) (c : Int) (s : String),
      ∃ r : IConnectionResult, r.connected = b ∧ r.errorMessage = m ∧
        r.errorCode = c ∧ r.callStack = s ∧ r.errorHandled = none ∧
        r.connectionProfile = none) ∧
    (∀ r r' : IConnectionResult, r.connected = r'.connected →
      r.errorMessage = r'.errorMessage → r.errorCode = r'.errorCode →
      r.callStack = r'.callStack → r.errorHandled = r'.errorHandled →
      r.connectionProfile = r'.connectionProfile → r = r') := by
  constructor
  · intro b m c s
    exact ⟨⟨b, m, c, s, none, none⟩, rfl, rfl, rfl, rfl, rfl, rfl⟩
  · intro r r' h1 h2 h3 h4 h5 h6
    cases r
    cases r'
    simp_all

/-- Witness for claim C9: a successful result with both optional fields
absent exists, and the field characterization applies at a concrete value. -/
theorem connectionResult_required_and_optional_fields_witness :
    (∃ r : IConnectionResult, r.connected = true ∧ r.errorMessage = "" ∧
       r.errorCode = 0 ∧ r.callStack = "" ∧ r.errorHandled = none ∧
       r.connectionProfile = none) ∧
    (⟨true, "", 0, "", none, none⟩ : IConnectionResult) =
      ⟨true, "", 0, "", none, none⟩ :=
  ⟨connectionResult_required_and_optional_fields.1 true "" 0 "",
   connectionResult_required_and_optional_fields.2
     ⟨true, "", 0, "", none, none⟩ ⟨true, "", 0, "", none, none⟩
     rfl rfl rfl rfl rfl rfl⟩

/-- Claim C10: `connect` and `connectAndSaveProfile` declare `options` and
`callbacks` as optional parameters, and the two-argument call
`connect(profile, uri)` is the very call with no completion options and no
callbacks passed. -/
theorem connect_options_and_callbacks_optional :
    (∀ p u st, connectTwoArgs p u st = connect p u none none st) ∧
    (∀ p u st, connectAndSaveProfileTwoArgs p u st =
       connectAndSaveProfile p u none none st) ∧
    (interfaceMethodSigs.find? (fun s => s.name == "connect")).map
      (·.optionalParams) = some ["options", "callbacks"] ∧
    (interfaceMethodSigs.find? (fun s => s.name == "connectAndSaveProfile")).map
      (·.optionalParams) = some ["options", "callbacks"] ∧
    (interfaceMethodSigs.find? (fun s => s.name == "connect")).map
      (·.requiredParams) = some ["connection", "uri"] := by
  refine ⟨fun _ _ _ => rfl, fun _ _ _ => rfl, ?_, ?_, ?_⟩ <;> rfl

/-- Claim C6: `disconnect(uri)` on a URI with no active connection and no
Pending Entry resolves successfully and leaves the whole service state
unchanged (idempotent no-op); on a URI with only a Pending Entry it is
treated as cancellation of that pending connect. -/
theorem disconnect_noop_and_pending_cancellation (u : String) (st : ServiceState) :
    (st.connections.find? (fun c => c.1 == u) = none →
     st.pendings.find? (fun e => e.uri == u) = none →
     disconnect u st = (.ok (), st, [])) ∧
    (∀ e, st.connections.find? (fun c => c.1 == u) = none →
       st.pendings.find? (fun x => x.uri == u) = some e →
       disconnect u st =
         (.ok (),
          { st with pendings := st.pendings.filter (fun x => !(x.handle == e.handle)) },
          List.replicate e.waiters .cancelled)) := by
  constructor
  · intro h1 h2
    simp only [disconnect, h1, h2]
  · intro e h1 h2
    simp only [disconnect, h1, h2]

/-- Witness for claim C6: concrete no-op disconnect and concrete
pending-entry disconnect. -/
theorem disconnect_noop_and_pending_cancellation_witness :
    disconnect "file:///nothing" sampleState = (.ok (), sampleState, []) ∧
    disconnect "file:///a" samplePendingState =
      (.ok (),
       { samplePendingState with
         pendings := samplePendingState.pendings.filter
           (fun x => !(x.handle == samplePending.handle)) },
       List.replicate samplePending.waiters .cancelled) :=
  ⟨(disconnect_noop_and_pending_cancellation "file:///nothing" sampleState).1 rfl rfl,
   (disconnect_noop_and_pending_cancellation "file:///a" samplePendingState).2
     samplePending rfl rfl⟩

/-- Claim C7: `changeDatabase(uri, dbName)` fails with `NotConnected` when
no live connection exists for the URI; on success it mutates exactly the
active-database field of the stored ConnectionManagementInfo for that URI,
leaving every other connection entry and every other state component
unchanged. -/
theorem changeDatabase_notConnected_or_exact_mutation (u d : String)
    (st : ServiceState) :
    (st.connections.find? (fun c => c.1 == u) = none →
     changeDatabase u d st = .error .NotConnected) ∧
    (∀ c0, st.connections.find? (fun c => c.1 == u) = some c0 →
      ∃ st', changeDatabase u d st = .ok st' ∧
        st'.connections = st.connections.map (fun c =>
          if c.1 == u then (c.1, { c.2 with activeDatabase := d }) else c) ∧
        (u, { c0.2 with activeDatabase := d }) ∈ st'.connections ∧
        (∀ c ∈ st.connections, (c.1 == u) = false → c ∈ st'.connections) ∧
        st'.pendings = st.pendings ∧ st'.recents = st.recents ∧
        st'.providers = st.providers ∧ st'.nextHandle = st.nextHandle ∧
        st'.clock = st.clock ∧ st'.recentCapacity = st.recentCapacity ∧
        st'.providerRequests = st.providerRequests) := by
  constructor
  · intro h1
    simp only [changeDatabase, h1]
  · intro c0 h1
    refine ⟨{ st with
              connections := st.connections.map (fun c =>
                if c.1 == u then (c.1, { c.2 with activeDatabase := d }) else c) },
      by simp only [changeDatabase, h1], rfl, ?_, ?_, rfl, rfl, rfl, rfl,
      rfl, rfl, rfl⟩
    · have hmem := List.mem_of_find?_eq_some h1
      have hkey := List.find?_some h1
      have hkey' : c0.1 = u := by simpa using hkey
      refine List.mem_map.mpr ⟨c0, hmem, ?_⟩
      rw [if_pos hkey, hkey']
    · intro c hc hne
      refine List.mem_map.mpr ⟨c, hc, ?_⟩
      rw [hne]
      simp

/-- Witness for claim C7: concrete NotConnected failure and concrete
successful database change. -/
theorem changeDatabase_notConnected_or_exact_mutation_witness :
    changeDatabase "file:///nothing" "dbX" sampleState = .error .NotConnected ∧
    ∃ st', changeDatabase "connection://id1" "dbX" sampleConnectedState = .ok st' ∧
      st'.connections = sampleConnectedState.connections.map (fun c =>
        if c.1 == "connection://id1" then (c.1, { c.2 with activeDatabase := "dbX" })
        else c) ∧
      ("connection://id1", { sampleInfo with activeDatabase := "dbX" }) ∈
        st'.connections ∧
      (∀ c ∈ sampleConnectedState.connections, (c.1 == "connection://id1") = false →
        c ∈ st'.connections) ∧
      st'.pendings = sampleConnectedState.pendings ∧
      st'.recents = sampleConnectedState.recents ∧
      st'.providers = sampleConnectedState.providers ∧
      st'.nextHandle = sampleConnectedState.nextHandle ∧
      st'.clock = sampleConnectedState.clock ∧
      st'.recentCapacity = sampleConnectedState.recentCapacity ∧
      st'.providerRequests = sampleConnectedState.providerRequests :=
  ⟨(changeDatabase_notConnected_or_exact_mutation "file:///nothing" "dbX"
      sampleState).1 rfl,
   (changeDatabase_notConnected_or_exact_mutation "connection://id1" "dbX"
      sampleConnectedState).2 ("connection://id1", sampleInfo) rfl⟩

/-- Claim C3: cancelling a pending connect resolves every attached caller
as cancelled and discards the Pending Entry, and a late
`onConnectionComplete` arriving for that correlation handle afterwards is
ignored: it returns the state unchanged (no change to the Connection
Table, Recency Store, or any other component) and delivers nothing
(stale-handle guard). -/
theorem cancelConnection_resolves_cancelled_and_ignores_late_completion
    (p : IConnectionProfile) (st : ServiceState) (e : PendingConnectionEntry)
    (hfind : st.pendings.find? (fun x => matchesProfile x.profile p) = some e) :
    cancelConnection p st =
      (true,
       { st with pendings := st.pendings.filter (fun x => !(x.handle == e.handle)) },
       List.replicate e.waiters .cancelled) ∧
    (∀ summary,
      onConnectionComplete e.handle summary
        { st with pendings := st.pendings.filter (fun x => !(x.handle == e.handle)) } =
      ({ st with pendings := st.pendings.filter (fun x => !(x.handle == e.handle)) },
       [])) := by
  constructor
  · simp only [cancelConnection, hfind]
  · intro summary
    simp only [onConnectionComplete, find?_handle_filter_none]

/-- Witness for claim C3 at a concrete pending connect. -/
theorem cancelConnection_resolves_cancelled_and_ignores_late_completion_witness :
    cancelConnection sampleProfile samplePendingState =
      (true,
       { samplePendingState with
         pendings := samplePendingState.pendings.filter
           (fun x => !(x.handle == samplePending.handle)) },
       List.replicate samplePending.waiters .cancelled) ∧
    onConnectionComplete samplePending.handle sampleOkSummary
        { samplePendingState with
          pendings := samplePendingState.pendings.filter
            (fun x => !(x.handle == samplePending.handle)) } =
      ({ samplePendingState with
         pendings := samplePendingState.pendings.filter
           (fun x => !(x.handle == samplePending.handle)) },
       []) := by
  have h := cancelConnection_resolves_cancelled_and_ignores_late_completion
    sampleProfile samplePendingState samplePending (by decide)
  exact ⟨h.1, h.2 sampleOkSummary⟩

/-- Claim C8: `findExistingConnection` is a pure lookup — the
state-threading form returns the input state untouched and computes the
same value as the direct form; when it returns a profile, that profile is
the connected profile of some Connection Table entry matching the request
by structural profile identity; and, unlike the asynchronous operations of
the contract, its declared signature returns its result directly rather
than as a promise. -/
theorem findExistingConnection_pure_direct_lookup (p : IConnectionProfile)
    (purpose : Option Purpose) (st : ServiceState) :
    (findExistingConnectionOp p purpose st).2 = st ∧
    (findExistingConnectionOp p purpose st).1 = findExistingConnection p purpose st ∧
    (∀ r, findExistingConnection p purpose st = some r →
      ∃ u info, (u, info) ∈ st.connections ∧ info.connectionProfile = r ∧
        matchesProfile r p = true) ∧
    (interfaceMethodSigs.find? (fun s => s.name == "findExistingConnection")).map
      (·.returnStyle) = some .direct := by
  refine ⟨rfl, rfl, ?_, rfl⟩
  intro r hr
  unfold findExistingConnection at hr
  obtain ⟨c, hc, hmap⟩ := Option.map_eq_some'.mp hr
  have hpred := List.find?_some hc
  have hmem := List.mem_of_find?_eq_some hc
  simp only [Bool.and_eq_true] at hpred
  refine ⟨c.1, c.2, hmem, hmap, ?_⟩
  rw [← hmap]
  exact hpred.2

/-- Witness for claim C8 at a concrete connected state. -/
theorem findExistingConnection_pure_direct_lookup_witness :
    (findExistingConnectionOp sampleProfile none sampleConnectedState).2 =
      sampleConnectedState ∧
    ∃ u info, (u, info) ∈ sampleConnectedState.connections ∧
      info.connectionProfile = sampleProfile ∧
      matchesProfile sampleProfile sampleProfile = true := by
  have h := findExistingConnection_pure_direct_lookup sampleProfile none
    sampleConnectedState
  exact ⟨h.1, h.2.2.1 sampleProfile (by decide)⟩

/-- Claim C1: provider-level failures never escape `connect` as faults —
the only synchronous failures of `connect` are the programmer-error
inputs (empty URI, malformed profile with an empty provider name, or an
unregistered provider id), and a provider-reported connection failure is
delivered to every waiting caller as a resolved structured result with
`connected = false` and the error fields taken from the provider summary,
never as a rejection; the Connection Table keeps only the pending entry
removal (no new connection, no recency update). -/
theorem connect_failures_resolve_structured :
    (∀ p u options callbacks st err,
      connect p u options callbacks st = .error err →
      u = "" ∨ p.providerName = "" ∨ st.providers.contains p.providerName = false) ∧
    (∀ h summary st e, st.pendings.find? (fun x => x.handle == h) = some e →
      summary.connectionId = none →
      onConnectionComplete h summary st =
        ({ st with pendings := st.pendings.filter (fun x => !(x.handle == h)) },
         List.replicate e.waiters (.completed
           { connected := false, errorMessage := summary.errorMessage,
             errorCode := summary.errorNumber, callStack := summary.messages,
             errorHandled := none, connectionProfile := some e.profile }))) := by
  constructor
  · intro p u options callbacks st err hc
    by_cases h1 : u = ""
    · exact Or.inl h1
    by_cases h2 : p.providerName = ""
    · exact Or.inr (Or.inl h2)
    by_cases h3 : st.providers.contains p.providerName = true
    · exfalso
      simp only [connect, h1, h2, h3, if_false, if_true, ite_true, ite_false,
        if_neg, not_false_iff] at hc
      split at hc
      · exact absurd hc (by simp)
      · split at hc
        · exact absurd hc (by simp)
        · exact absurd hc (by simp)
    · exact Or.inr (Or.inr (by simpa using h3))
  · intro h summary st e hfind hcid
    simp only [onConnectionComplete, hfind, hcid]

/-- Witness for claim C1: a concrete synchronous programmer-error failure
and a concrete provider failure resolved as a structured result. -/
theorem connect_failures_resolve_structured_witness :
    ("file:///a" = "" ∨ sampleProfile.providerName = "" ∨
      (ServiceState.providers { sampleState with providers := [] }).contains
        sampleProfile.providerName = false) ∧
    onConnectionComplete samplePending.handle sampleFailSummary samplePendingState =
      ({ samplePendingState with
         pendings := samplePendingState.pendings.filter
           (fun x => !(x.handle == samplePending.handle)) },
       List.replicate samplePending.waiters (.completed
         { connected := false, errorMessage := sampleFailSummary.errorMessage,
           errorCode := sampleFailSummary.errorNumber,
           callStack := sampleFailSummary.messages,
           errorHandled := none, connectionProfile := some samplePending.profile })) :=
  ⟨connect_failures_resolve_structured.1 sampleProfile "file:///a" none none
     { sampleState with providers := [] } .UnknownProvider rfl,
   connect_failures_resolve_structured.2 samplePending.handle sampleFailSummary
     samplePendingState samplePending (by decide) rfl⟩

/-- Claim C4: when a pending connect completes successfully with
`saveTheConnection = true`, its profile becomes the first element of
`getRecentConnections()`; and the Recency Store invariants are preserved:
no two entries share a profile identity (an already-present profile is
moved to the front, not duplicated), the entries are ordered by descending
last-used time, and the length never exceeds the configured capacity
bound. -/
theorem recency_front_after_saved_connect (st : ServiceState) (h : Nat)
    (e : PendingConnectionEntry) (summary : ConnectionInfoSummary) (cid : String)
    (hfind : st.pendings.find? (fun x => x.handle == h) = some e)
    (hsave : saveTheConnectionOf e.options = true)
    (hcid : summary.connectionId = some cid)
    (hcap : 1 ≤ st.recentCapacity)
    (hdist : st.recents.Pairwise distinctRecency)
    (hsort : st.recents.Pairwise moreRecent)
    (hfresh : ∀ x ∈ st.recents, x.lastUsed < st.clock) :
    (getRecentConnections (onConnectionComplete h summary st).1).head? =
      some e.profile ∧
    (onConnectionComplete h summary st).1.recents.Pairwise distinctRecency ∧
    (onConnectionComplete h summary st).1.recents.Pairwise moreRecent ∧
    (onConnectionComplete h summary st).1.recents.length ≤ st.recentCapacity := by
  have hrec : (onConnectionComplete h summary st).1.recents =
      addToRecent e.profile st.clock st.recentCapacity st.recents := by
    simp only [onConnectionComplete, hfind, hcid, hsave, if_true]
  refine ⟨?_, ?_, ?_, ?_⟩
  · unfold getRecentConnections
    rw [hrec, List.head?_map, addToRecent_head? e.profile st.clock st.recentCapacity
      st.recents hcap]
    rfl
  · rw [hrec]
    exact addToRecent_pairwise_distinct e.profile st.clock st.recentCapacity
      st.recents hdist
  · rw [hrec]
    exact addToRecent_pairwise_recent e.profile st.clock st.recentCapacity
      st.recents hsort hfresh
  · rw [hrec]
    exact addToRecent_length_le e.profile st.clock st.recentCapacity st.recents

/-- Witness for claim C4 at a concrete saved successful connect. -/
theorem recency_front_after_saved_connect_witness :
    (getRecentConnections
       (onConnectionComplete samplePending.handle sampleOkSummary
          samplePendingState).1).head? = some samplePending.profile ∧
    (onConnectionComplete samplePending.handle sampleOkSummary
       samplePendingState).1.recents.Pairwise distinctRecency ∧
    (onConnectionComplete samplePending.handle sampleOkSummary
       samplePendingState).1.recents.Pairwise moreRecent ∧
    (onConnectionComplete samplePending.handle sampleOkSummary
       samplePendingState).1.recents.length ≤ samplePendingState.recentCapacity := by
  have h := recency_front_after_saved_connect samplePendingState
    samplePending.handle samplePending sampleOkSummary "cid9" (by decide) rfl rfl
    (by decide) List.Pairwise.nil List.Pairwise.nil
    (by intro x hx; simp [samplePendingState, sampleState] at hx)
  exact h

theorem connect_fresh (p : IConnectionProfile) (u : String)
    (o : Option IConnectionCompletionOptions) (cb : Option IConnectionCallbacks)
    (st : ServiceState) (hu : ¬ u = "") (hpn : ¬ p.providerName = "")
    (hreg : st.providers.contains p.providerName = true)
    (hnoconn : st.connections.find?
      (fun c => matchesProfile c.2.connectionProfile p) = none)
    (hnopend : st.pendings.find? (fun x => x.uri == u) = none) :
    connect p u o cb st = .ok
      ({ st with
         pendings := { handle := st.nextHandle, uri := u, profile := p,
                       options := o, waiters := 1 } :: st.pendings,
         nextHandle := st.nextHandle + 1,
         providerRequests := (st.nextHandle, p.providerName, u) ::
           st.providerRequests },
       .started st.nextHandle) := by
  simp only [connect, if_neg hu, if_neg hpn, if_pos hreg, hnoconn, ite_self, hnopend]

theorem connect_attach (p : IConnectionProfile) (u : String)
    (o : Option IConnectionCompletionOptions) (cb : Option IConnectionCallbacks)
    (st : ServiceState) (e : PendingConnectionEntry)
    (hu : ¬ u = "") (hpn : ¬ p.providerName = "")
    (hreg : st.providers.contains p.providerName = true)
    (hnoconn : st.connections.find?
      (fun c => matchesProfile c.2.connectionProfile p) = none)
    (hpend : st.pendings.find? (fun x => x.uri == u) = some e) :
    connect p u o cb st = .ok
      ({ st with
         pendings := st.pendings.map (fun x =>
           if x.handle == e.handle then { x with waiters := x.waiters + 1 } else x) },
       .attached e.handle) := by
  simp only [connect, if_neg hu, if_neg hpn, if_pos hreg, hnoconn, ite_self, hpend]

/-- The Pending Connection Entry that a fresh `connect` call registers. -/
def freshPendingEntry (p : IConnectionProfile) (u : String)
    (o : Option IConnectionCompletionOptions) (h : Nat) : PendingConnectionEntry :=
  { handle := h, uri := u, profile := p, options := o, waiters := 1 }

/-- The state after a fresh `connect` call registered its Pending Entry and
issued its provider request. -/
def connectFreshState (p : IConnectionProfile) (u : String)
    (o : Option IConnectionCompletionOptions) (st : ServiceState) : ServiceState :=
  { st with
    pendings := freshPendingEntry p u o st.nextHandle :: st.pendings,
    nextHandle := st.nextHandle + 1,
    providerRequests := (st.nextHandle, p.providerName, u) :: st.providerRequests }

/-- The state after a second `connect` call for the same URI attached to the
in-flight Pending Entry of a fresh call. -/
def connectAttachedState (p : IConnectionProfile) (u : String)
    (o : Option IConnectionCompletionOptions) (st : ServiceState) : ServiceState :=
  { st with
    pendings := (connectFreshState p u o st).pendings.map (fun x =>
      if x.handle == st.nextHandle then { x with waiters := x.waiters + 1 } else x),
    nextHandle := st.nextHandle + 1,
    providerRequests := (st.nextHandle, p.providerName, u) :: st.providerRequests }

/-- Claim C2: two concurrent `connect` calls for the same URI issue exactly
one provider-level connect request — the first call registers the Pending
Entry and issues the request, the second observes the in-flight entry and
attaches to the same correlation handle without issuing a new request —
and when the provider completes that handle, both attached callers are
resolved with the same result. -/
theorem concurrent_connect_single_provider_request
    (p : IConnectionProfile) (u : String)
    (o1 o2 : Option IConnectionCompletionOptions)
    (cb1 cb2 : Option IConnectionCallbacks) (st : ServiceState)
    (hu : ¬ u = "") (hpn : ¬ p.providerName = "")
    (hreg : st.providers.contains p.providerName = true)
    (hnoconn : st.connections.find?
      (fun c => matchesProfile c.2.connectionProfile p) = none)
    (hnopend : st.pendings.find? (fun x => x.uri == u) = none) :
    connect p u o1 cb1 st =
      .ok (connectFreshState p u o1 st, .started st.nextHandle) ∧
    connect p u o2 cb2 (connectFreshState p u o1 st) =
      .ok (connectAttachedState p u o1 st, .attached st.nextHandle) ∧
    (connectFreshState p u o1 st).providerRequests.length =
      st.providerRequests.length + 1 ∧
    (connectAttachedState p u o1 st).providerRequests =
      (connectFreshState p u o1 st).providerRequests ∧
    (∀ summary,
      (onConnectionComplete st.nextHandle summary
        (connectAttachedState p u o1 st)).2.length = 2 ∧
      ∀ x ∈ (onConnectionComplete st.nextHandle summary
               (connectAttachedState p u o1 st)).2,
        ∀ y ∈ (onConnectionComplete st.nextHandle summary
                 (connectAttachedState p u o1 st)).2, x = y) := by
  have hpend1 : (connectFreshState p u o1 st).pendings.find?
      (fun x => x.uri == u) = some (freshPendingEntry p u o1 st.nextHandle) :=
    List.find?_cons_of_pos _ (by simp [freshPendingEntry])
  refine ⟨?_, ?_, ?_, rfl, ?_⟩
  · rw [connect_fresh p u o1 cb1 st hu hpn hreg hnoconn hnopend]
    rfl
  · rw [connect_attach p u o2 cb2 (connectFreshState p u o1 st)
      (freshPendingEntry p u o1 st.nextHandle) hu hpn hreg hnoconn hpend1]
    rfl
  · simp [connectFreshState]
  · intro summary
    have hfind2 : (connectAttachedState p u o1 st).pendings.find?
        (fun x => x.handle == st.nextHandle) =
        some { handle := st.nextHandle, uri := u, profile := p,
               options := o1, waiters := 2 } := by
      show ((freshPendingEntry p u o1 st.nextHandle :: st.pendings).map (fun x =>
        if x.handle == st.nextHandle then { x with waiters := x.waiters + 1 }
        else x)).find? (fun x => x.handle == st.nextHandle) = _
      rw [List.map_cons]
      rw [List.find?_cons_of_pos _ (by simp [freshPendingEntry])]
      simp [freshPendingEntry]
    constructor
    · cases hc : summary.connectionId with
      | none => simp only [onConnectionComplete, hfind2, hc, List.length_replicate]
      | some cid => simp only [onConnectionComplete, hfind2, hc, List.length_replicate]
    · exact fun x hx y hy => onConnectionComplete_resolutions_eq _ _ _ x hx y hy

/-- Witness for claim C2 at a concrete profile, URI and state. -/
theorem concurrent_connect_single_provider_request_witness :
    connect sampleProfile "file:///a" none none sampleState =
      .ok (connectFreshState sampleProfile "file:///a" none sampleState,
           .started sampleState.nextHandle) ∧
    connect sampleProfile "file:///a" none none
        (connectFreshState sampleProfile "file:///a" none sampleState) =
      .ok (connectAttachedState sampleProfile "file:///a" none sampleState,
           .attached sampleState.nextHandle) ∧
    (onConnectionComplete sampleState.nextHandle sampleOkSummary
       (connectAttachedState sampleProfile "file:///a" none sampleState)).2.length =
      2 := by
  have h := concurrent_connect_single_provider_request sampleProfile "file:///a"
    none none none none sampleState (by decide) (by decide) (by decide) rfl rfl
  exact ⟨h.1, h.2.1, (h.2.2.2.2 sampleOkSummary).1⟩
